import Mathlib

/-!
# Verification of frbpoppy's population generator

A shallow embedding of `do_populate.py` (the `generate` function) of the
frbpoppy repository, together with theorems settling the specification
claims about it.

Python floats are modelled as real numbers.  The ambient random stream
(`random.random()` calls) is modelled as an explicit function `ℕ → ℝ`
consumed at fixed offsets: each loop iteration uses five fresh draws
(latitude, sign flip, longitude, distance, and the draw consumed inside
the delegated `powerlaw` sampler).  The collaborator modules
(`galacticops`, `distributions`) and the `Population`/`Source` classes
are not part of the given sources; they are modelled below exactly at
their interface, as documented on each definition.
-/

namespace Frbpoppy

/-- Python values relevant to the dynamically typed `name` argument of
`generate`: the fragment needed to express the falsy/truthy and
string-type checks performed by the source (`if not name`, and
`type(name) != str`). -/
inductive PyVal where
  | none
  | str (s : String)
  | int (n : ℤ)
  | bool (b : Bool)
  | list (l : List PyVal)

/-- Python truthiness for the modelled fragment of values:
`None`, `""`, `0`, `False` and `[]` are falsy, everything else truthy. -/
def pyTruthy : PyVal → Bool
  | .none => false
  | .str s => decide (s ≠ "")
  | .int n => decide (n ≠ 0)
  | .bool b => b
  | .list l => !l.isEmpty

/-- An FRB source, with the attributes assigned in the sampling loop of
`generate` (lines 158-192 of `do_populate.py`).  The `Source` class
itself lives outside the given sources; modelled from the spec (section 3)
as a plain record of the fields the loop assigns. -/
structure Source where
  gb : ℝ := 0
  gl : ℝ := 0
  dist : ℝ := 0
  z : ℝ := 0
  gx : ℝ := 0
  gy : ℝ := 0
  gz : ℝ := 0
  dm_mw : ℝ := 0
  dm_igm : ℝ := 0
  dm_host : ℝ := 0
  dm : ℝ := 0
  w_int : ℝ := 0
  lum_bol : ℝ := 0
  si : ℝ := 0

instance : Inhabited Source := ⟨{}⟩

/-- The population container.  The `Population` class lives outside the
given sources; modelled from the spec (section 3): a freshly constructed
`Population` starts with `n_srcs = 0` and an empty source list, and
`generate` then assigns the configuration-snapshot fields (lines
127-145 of `do_populate.py`). -/
structure Population where
  name : String := ""
  n_gen : ℕ := 0
  n_srcs : ℕ := 0
  sources : List Source := []
  electron_model : String := ""
  cosmology : Bool := true
  H_0 : ℝ := 0
  W_m : ℝ := 0
  W_v : ℝ := 0
  z_max : ℝ := 0
  v_max : ℝ := 0
  lum_min : ℝ := 0
  lum_max : ℝ := 0
  lum_pow : ℝ := 0
  w_min : ℝ := 0
  w_max : ℝ := 0
  f_min : ℝ := 0
  f_max : ℝ := 0
  si_mean : ℝ := 0
  si_sigma : ℝ := 0

instance : Inhabited Population := ⟨{}⟩

/-- Modelled from the spec: the delegated collaborator functions that
`do_populate.py` imports from `galacticops` and `distributions`.  Their
bodies are outside the given sources; only the call shapes visible at the
call sites in `generate` are fixed here.  In particular `z_to_v` receives
only a redshift (the call on line 136 passes only `z_max`), and the
random-consuming `powerlaw` sampler receives its uniform draw as an
explicit final argument. -/
structure Externals where
  z_to_v : ℝ → ℝ
  dist_lookup : Bool → ℝ → ℝ → ℝ → ℝ → List ℝ × List ℝ
  interpolate_z : ℝ → List ℝ → List ℝ → ℝ → ℝ
  lb_to_xyz : ℝ → ℝ → ℝ → ℝ × ℝ × ℝ
  ne2001_dist_to_dm : ℝ → ℝ → ℝ → ℝ
  ioka_dm_igm : ℝ → ℝ
  redshift_pulse : ℝ → ℝ → ℝ → ℝ
  powerlaw : ℝ → ℝ → ℝ → ℝ → ℝ

/-- The arguments of `generate`, with the default values of the Python
signature (lines 12-21 of `do_populate.py`). -/
structure GenArgs where
  n_gen : ℤ
  cosmology : Bool := true
  cosmo_pars : List ℝ := [69.6, 0.286, 0.714]
  electron_model : String := "ne2001"
  emission_pars : List ℝ := [10e6, 10e9]
  lum_dist_pars : List ℝ := [1e40, 1e50, 1]
  name : PyVal := .none
  pulse : List ℝ := [0.1, 5]
  si_pars : List ℝ := [1, 1]
  z_max : ℝ := 2.5

/-- `math.degrees`: radians to degrees. -/
noncomputable def degrees (x : ℝ) : ℝ := x * (180 / Real.pi)

/-- The name defaulting of lines 106-107: a falsy `name` is replaced by
`'Initial'` before the string type check. -/
def nameVal (a : GenArgs) : PyVal := if pyTruthy a.name then a.name else .str "Initial"

/-- The input validation cascade of `generate` (lines 56-124), in source
order, returning the message of the first `ValueError` raised, or `none`
when every check passes.  The Python dynamic-type checks
(`type(n_gen) != int`, `type(cosmology) != bool`, numeric checks on the
list parameters, numeric `z_max`) hold by typing in this embedding; the
remaining checks are kept verbatim and in order. -/
def validate (a : GenArgs) : Option String :=
  if a.n_gen < 1 then some "Please ensure the number of generated sources is > 0"
  else if a.cosmo_pars.length ≠ 3 then some "Please ensure there are three cosmology parameters"
  else if ¬ (a.electron_model ∈ ["ne2001"]) then
    some ("Unsupported electron model: " ++ a.electron_model)
  else if a.emission_pars.length ≠ 2 then some "Please ensure there are two emission parameters"
  else if a.lum_dist_pars.length ≠ 3 then
    some "Please ensure there are three luminosity distribution parameters"
  else if a.pulse.length ≠ 2 then some "Please ensure there are two pulse parameters"
  else match nameVal a with
    | .str _ =>
      if a.si_pars.length ≠ 2 then some "Please ensure there are two spectral index parameters"
      else Option.none
    | _ => some "Please provide a string as input for the name of the population"

/-- The string carried by a `PyVal.str`; `""` otherwise. -/
def pyNameStr : PyVal → String
  | .str s => s
  | _ => ""

/-- The population set-up of lines 127-145: a fresh `Population` with the
configuration snapshot assigned, including `v_max = z_to_v(z_max)`
(line 136, which passes only `z_max`). -/
noncomputable def initPop (ext : Externals) (a : GenArgs) (s : String) : Population :=
  { name := s
    n_gen := a.n_gen.toNat
    n_srcs := 0
    sources := []
    electron_model := a.electron_model
    cosmology := a.cosmology
    H_0 := a.cosmo_pars.getD 0 0
    W_m := a.cosmo_pars.getD 1 0
    W_v := a.cosmo_pars.getD 2 0
    z_max := a.z_max
    v_max := ext.z_to_v a.z_max
    lum_min := a.lum_dist_pars.getD 0 0
    lum_max := a.lum_dist_pars.getD 1 0
    lum_pow := a.lum_dist_pars.getD 2 0
    w_min := a.pulse.getD 0 0
    w_max := a.pulse.getD 1 0
    f_min := a.emission_pars.getD 0 0
    f_max := a.emission_pars.getD 1 0
    si_mean := a.si_pars.getD 0 0
    si_sigma := a.si_pars.getD 1 0 }

/-- One body of the sampling loop (lines 158-192): the source built from
the five random draws `r k, …, r (k+4)`, the lookup table `(ds, zs)` and
the population's configuration snapshot. -/
noncomputable def mkSource (ext : Externals) (pop : Population) (ds zs : List ℝ)
    (r : ℕ → ℝ) (k : ℕ) : Source :=
  let gb0 := degrees (Real.arcsin (r k))
  let gb := if r (k + 1) < 0.5 then gb0 * (-1) else gb0
  let gl := r (k + 2) * 360
  let dist := (pop.v_max * r (k + 3) * (3 / (4 * Real.pi))) ^ ((1 : ℝ) / 3)
  let z := ext.interpolate_z dist ds zs pop.H_0
  let xyz := ext.lb_to_xyz gl gb dist
  let dm_mw := ext.ne2001_dist_to_dm dist gl gb
  let dm_igm := ext.ioka_dm_igm z
  let dm_host : ℝ := 100
  { gb := gb
    gl := gl
    dist := dist
    z := z
    gx := xyz.1
    gy := xyz.2.1
    gz := xyz.2.2
    dm_mw := dm_mw
    dm_igm := dm_igm
    dm_host := dm_host
    dm := dm_mw + dm_igm + dm_host
    w_int := ext.redshift_pulse z pop.w_min pop.w_max
    lum_bol := ext.powerlaw pop.lum_min pop.lum_max pop.lum_pow (r (k + 4))
    si := -1.4 }

/-- One iteration of the sampling loop: append the freshly drawn source
and increment `n_srcs` (lines 195-196). -/
noncomputable def stepPop (ext : Externals) (ds zs : List ℝ) (r : ℕ → ℝ)
    (pop : Population) (k : ℕ) : Population :=
  { pop with
    sources := pop.sources ++ [mkSource ext pop ds zs r k]
    n_srcs := pop.n_srcs + 1 }

/-- The `while pop.n_srcs < pop.n_gen` loop of lines 155-196.  `k` is the
index of the next unconsumed random draw; each iteration consumes five. -/
noncomputable def genLoop (ext : Externals) (ds zs : List ℝ) (r : ℕ → ℝ)
    (pop : Population) (k : ℕ) : Population :=
  if pop.n_srcs < pop.n_gen then
    genLoop ext ds zs r (stepPop ext ds zs r pop k) (k + 5)
  else pop
termination_by pop.n_gen - pop.n_srcs
decreasing_by simp only [stepPop]; omega

/-- The `generate` function of `do_populate.py`: validation, population
set-up, the one-off lookup-table build (lines 148-153), and the sampling
loop; a raised `ValueError` is modelled as `Except.error` carrying the
message. -/
noncomputable def generate (ext : Externals) (a : GenArgs) (r : ℕ → ℝ) :
    Except String Population :=
  match validate a with
  | some m => .error m
  | none =>
    let pop := initPop ext a (pyNameStr (nameVal a))
    let dz := ext.dist_lookup pop.cosmology pop.H_0 pop.W_m pop.W_v pop.z_max
    .ok (genLoop ext dz.1 dz.2 r pop 0)

/-- The lookup table built by `generate` for a given configuration. -/
noncomputable def lookupOf (ext : Externals) (a : GenArgs) : List ℝ × List ℝ :=
  let pop := initPop ext a (pyNameStr (nameVal a))
  ext.dist_lookup pop.cosmology pop.H_0 pop.W_m pop.W_v pop.z_max

/-- Extract the population of a successful run (`{}` on error). -/
noncomputable def getOk (e : Except String Population) : Population :=
  match e with
  | .ok p => p
  | .error _ => {}

/-! ## Concrete instances and spec-modelled cosmology -/

/-- Modelled from the spec: the cosmology-module contract of section 4.1
-- given `(H0, Wm, Wv)` and a redshift `z`, the comoving volume out to
`z`, via the numerically integrated FLRW comoving distance
`dC = (c/H0) * I` with `I` the shape integral of `1/sqrt(Wm(1+t)^3+Wv)`
over `[0, z]`, and `V = (4 pi / 3) dC^3`. -/
noncomputable def z_to_v_flrw (H0 Wm Wv z : ℝ) : ℝ :=
  (4 * Real.pi / 3) *
    ((299792.458 / H0) * ∫ t in (0:ℝ)..z, 1 / Real.sqrt (Wm * (1 + t) ^ 3 + Wv)) ^ 3

/-- Modelled from the spec: `galacticops.z_to_v` as called by `generate`
receives only the redshift (line 136 passes only `z_max`), so it can only
evaluate the section 4.1 contract at the module's own fixed default
parameters -- the documented Planck defaults `[69.6, 0.286, 0.714]` --
never at the caller's `cosmo_pars`. -/
noncomputable def go_z_to_v (z : ℝ) : ℝ := z_to_v_flrw 69.6 0.286 0.714 z

/-- A simple collaborator instance satisfying the delegated contracts,
used to exercise the theorems on a fully concrete run. -/
def ext0 : Externals :=
  { z_to_v := fun z => z
    dist_lookup := fun _ _ _ _ _ => ([0], [0])
    interpolate_z := fun _ _ _ _ => 0
    lb_to_xyz := fun gl gb d => (gl, gb, d)
    ne2001_dist_to_dm := fun _ _ _ => 0
    ioka_dm_igm := fun _ => 0
    redshift_pulse := fun _ w _ => w
    powerlaw := fun lo _ _ _ => lo }

/-- A concrete random stream (all draws 0, a legal uniform value). -/
def r0 : ℕ → ℝ := fun _ => 0

/-- A concrete valid configuration: one source, all defaults. -/
def args0 : GenArgs := { n_gen := 1 }

/-- The population of the concrete run. -/
noncomputable def pop0 : Population := getOk (generate ext0 args0 r0)

/-- The single source of the concrete run. -/
noncomputable def src0 : Source := pop0.sources.headI

/-- The collaborator instance whose `z_to_v` is the spec-modelled
cosmology-module one. -/
noncomputable def refExt : Externals := { ext0 with z_to_v := go_z_to_v }

/-- A configuration differing from the defaults only in `cosmo_pars`. -/
def argsB : GenArgs := { n_gen := 1, cosmo_pars := [139.2, 0.286, 0.714] }

/-- A configuration differing from `args0` only in `si_pars`. -/
def argsSi : GenArgs := { n_gen := 1, si_pars := [2, 3] }

/-- The population of the `argsSi` run. -/
noncomputable def popSi : Population := getOk (generate ext0 argsSi r0)

/-- The population of the `argsB` run under `refExt`. -/
noncomputable def popB : Population := getOk (generate refExt argsB r0)

/-- The population of the default run under `refExt`. -/
noncomputable def popR : Population := getOk (generate refExt { n_gen := 1 } r0)

/-! ## Basic lemmas about the loop -/

theorem stepPop_n_srcs (ext : Externals) (ds zs : List ℝ) (r : ℕ → ℝ)
    (pop : Population) (k : ℕ) :
    (stepPop ext ds zs r pop k).n_srcs = pop.n_srcs + 1 := rfl

theorem stepPop_n_gen (ext : Externals) (ds zs : List ℝ) (r : ℕ → ℝ)
    (pop : Population) (k : ℕ) :
    (stepPop ext ds zs r pop k).n_gen = pop.n_gen := rfl

theorem stepPop_sources (ext : Externals) (ds zs : List ℝ) (r : ℕ → ℝ)
    (pop : Population) (k : ℕ) :
    (stepPop ext ds zs r pop k).sources = pop.sources ++ [mkSource ext pop ds zs r k] := rfl

theorem genLoop_eq (ext : Externals) (ds zs : List ℝ) (r : ℕ → ℝ)
    (pop : Population) (k : ℕ) :
    genLoop ext ds zs r pop k =
      if pop.n_srcs < pop.n_gen then
        genLoop ext ds zs r (stepPop ext ds zs r pop k) (k + 5)
      else pop := by
  rw [genLoop]

/-- The loop only touches `sources` and `n_srcs`: any field observation
unchanged by `stepPop` is unchanged by the whole loop. -/
theorem genLoop_pres {α : Type} (ext : Externals) (ds zs : List ℝ) (r : ℕ → ℝ)
    (f : Population → α) (hf : ∀ q k, f (stepPop ext ds zs r q k) = f q) :
    ∀ (n : ℕ) (pop : Population) (k : ℕ), pop.n_gen - pop.n_srcs = n →
      f (genLoop ext ds zs r pop k) = f pop := by
  intro n
  induction n with
  | zero =>
    intro pop k hn
    rw [genLoop_eq]
    have h : ¬ pop.n_srcs < pop.n_gen := by omega
    rw [if_neg h]
  | succ m ih =>
    intro pop k hn
    rw [genLoop_eq]
    by_cases h : pop.n_srcs < pop.n_gen
    · rw [if_pos h]
      rw [ih (stepPop ext ds zs r pop k) (k + 5)
            (by rw [stepPop_n_gen, stepPop_n_srcs]; omega)]
      exact hf pop k
    · rw [if_neg h]

theorem genLoop_n_gen (ext : Externals) (ds zs : List ℝ) (r : ℕ → ℝ)
    (pop : Population) (k : ℕ) :
    (genLoop ext ds zs r pop k).n_gen = pop.n_gen :=
  genLoop_pres ext ds zs r Population.n_gen (fun _ _ => rfl) _ pop k rfl

theorem genLoop_v_max (ext : Externals) (ds zs : List ℝ) (r : ℕ → ℝ)
    (pop : Population) (k : ℕ) :
    (genLoop ext ds zs r pop k).v_max = pop.v_max :=
  genLoop_pres ext ds zs r Population.v_max (fun _ _ => rfl) _ pop k rfl

theorem genLoop_name (ext : Externals) (ds zs : List ℝ) (r : ℕ → ℝ)
    (pop : Population) (k : ℕ) :
    (genLoop ext ds zs r pop k).name = pop.name :=
  genLoop_pres ext ds zs r Population.name (fun _ _ => rfl) _ pop k rfl

theorem genLoop_lum_min (ext : Externals) (ds zs : List ℝ) (r : ℕ → ℝ)
    (pop : Population) (k : ℕ) :
    (genLoop ext ds zs r pop k).lum_min = pop.lum_min :=
  genLoop_pres ext ds zs r Population.lum_min (fun _ _ => rfl) _ pop k rfl

theorem genLoop_lum_max (ext : Externals) (ds zs : List ℝ) (r : ℕ → ℝ)
    (pop : Population) (k : ℕ) :
    (genLoop ext ds zs r pop k).lum_max = pop.lum_max :=
  genLoop_pres ext ds zs r Population.lum_max (fun _ _ => rfl) _ pop k rfl

theorem genLoop_si_mean (ext : Externals) (ds zs : List ℝ) (r : ℕ → ℝ)
    (pop : Population) (k : ℕ) :
    (genLoop ext ds zs r pop k).si_mean = pop.si_mean :=
  genLoop_pres ext ds zs r Population.si_mean (fun _ _ => rfl) _ pop k rfl

theorem genLoop_si_sigma (ext : Externals) (ds zs : List ℝ) (r : ℕ → ℝ)
    (pop : Population) (k : ℕ) :
    (genLoop ext ds zs r pop k).si_sigma = pop.si_sigma :=
  genLoop_pres ext ds zs r Population.si_sigma (fun _ _ => rfl) _ pop k rfl

/-- The loop runs until `n_srcs` reaches `n_gen` exactly. -/
theorem genLoop_n_srcs (ext : Externals) (ds zs : List ℝ) (r : ℕ → ℝ) :
    ∀ (n : ℕ) (pop : Population) (k : ℕ), pop.n_gen - pop.n_srcs = n →
      pop.n_srcs ≤ pop.n_gen →
      (genLoop ext ds zs r pop k).n_srcs = pop.n_gen := by
  intro n
  induction n with
  | zero =>
    intro pop k hn hle
    rw [genLoop_eq]
    have h : ¬ pop.n_srcs < pop.n_gen := by omega
    rw [if_neg h]
    omega
  | succ m ih =>
    intro pop k hn hle
    rw [genLoop_eq]
    have h : pop.n_srcs < pop.n_gen := by omega
    rw [if_pos h]
    rw [ih (stepPop ext ds zs r pop k) (k + 5)
          (by rw [stepPop_n_gen, stepPop_n_srcs]; omega)
          (by rw [stepPop_n_gen, stepPop_n_srcs]; omega)]
    exact stepPop_n_gen ext ds zs r pop k

/-- The loop preserves the `sources`-length/`n_srcs` bookkeeping invariant. -/
theorem genLoop_len (ext : Externals) (ds zs : List ℝ) (r : ℕ → ℝ) :
    ∀ (n : ℕ) (pop : Population) (k : ℕ), pop.n_gen - pop.n_srcs = n →
      pop.sources.length = pop.n_srcs →
      (genLoop ext ds zs r pop k).sources.length = (genLoop ext ds zs r pop k).n_srcs := by
  intro n
  induction n with
  | zero =>
    intro pop k hn hlen
    rw [genLoop_eq]
    have h : ¬ pop.n_srcs < pop.n_gen := by omega
    rw [if_neg h]
    exact hlen
  | succ m ih =>
    intro pop k hn hlen
    rw [genLoop_eq]
    by_cases h : pop.n_srcs < pop.n_gen
    · rw [if_pos h]
      exact ih (stepPop ext ds zs r pop k) (k + 5)
        (by rw [stepPop_n_gen, stepPop_n_srcs]; omega)
        (by rw [stepPop_sources, stepPop_n_srcs, List.length_append,
                List.length_singleton, hlen])
    · rw [if_neg h]
      exact hlen

/-- `mkSource` only reads the sampler-relevant configuration fields of
the population. -/
theorem mkSource_congr (ext : Externals) (ds zs : List ℝ) (r : ℕ → ℝ) (j : ℕ)
    (p q : Population)
    (h1 : p.v_max = q.v_max) (h2 : p.H_0 = q.H_0) (h3 : p.w_min = q.w_min)
    (h4 : p.w_max = q.w_max) (h5 : p.lum_min = q.lum_min)
    (h6 : p.lum_max = q.lum_max) (h7 : p.lum_pow = q.lum_pow) :
    mkSource ext p ds zs r j = mkSource ext q ds zs r j := by
  simp only [mkSource, h1, h2, h3, h4, h5, h6, h7]

/-- Every source of the loop's output satisfies `P`, provided the initial
sources do and every source built from a population agreeing with the
initial one on the sampler-relevant fields does. -/
theorem genLoop_sources_forall (ext : Externals) (ds zs : List ℝ) (r : ℕ → ℝ)
    (P : Source → Prop) :
    ∀ (n : ℕ) (pop : Population) (k : ℕ), pop.n_gen - pop.n_srcs = n →
      (∀ s ∈ pop.sources, P s) →
      (∀ (q : Population) (j : ℕ), q.v_max = pop.v_max → q.H_0 = pop.H_0 →
        q.w_min = pop.w_min → q.w_max = pop.w_max → q.lum_min = pop.lum_min →
        q.lum_max = pop.lum_max → q.lum_pow = pop.lum_pow →
        P (mkSource ext q ds zs r j)) →
      ∀ s ∈ (genLoop ext ds zs r pop k).sources, P s := by
  intro n
  induction n with
  | zero =>
    intro pop k hn hsrc _
    rw [genLoop_eq]
    have h : ¬ pop.n_srcs < pop.n_gen := by omega
    rw [if_neg h]
    exact hsrc
  | succ m ih =>
    intro pop k hn hsrc hmk
    rw [genLoop_eq]
    by_cases h : pop.n_srcs < pop.n_gen
    · rw [if_pos h]
      refine ih (stepPop ext ds zs r pop k) (k + 5)
        (by rw [stepPop_n_gen, stepPop_n_srcs]; omega) ?_ ?_
      · intro s hs
        rw [stepPop_sources] at hs
        rcases List.mem_append.1 hs with hs | hs
        · exact hsrc s hs
        · rw [List.mem_singleton] at hs
          subst hs
          exact hmk pop k rfl rfl rfl rfl rfl rfl rfl
      · intro q j h1 h2 h3 h4 h5 h6 h7
        exact hmk q j h1 h2 h3 h4 h5 h6 h7
    · rw [if_neg h]
      exact hsrc

/-- Two loop runs over populations agreeing on everything the loop reads
(except possibly `si_mean`/`si_sigma` and the other unread fields)
produce the same source list. -/
theorem genLoop_sources_eq (ext : Externals) (ds zs : List ℝ) (r : ℕ → ℝ) :
    ∀ (n : ℕ) (p q : Population) (k : ℕ), p.n_gen - p.n_srcs = n →
      p.n_gen = q.n_gen → p.n_srcs = q.n_srcs → p.sources = q.sources →
      p.v_max = q.v_max → p.H_0 = q.H_0 → p.w_min = q.w_min → p.w_max = q.w_max →
      p.lum_min = q.lum_min → p.lum_max = q.lum_max → p.lum_pow = q.lum_pow →
      (genLoop ext ds zs r p k).sources = (genLoop ext ds zs r q k).sources := by
  intro n
  induction n with
  | zero =>
    intro p q k hn hgen hsrcs hs h1 h2 h3 h4 h5 h6 h7
    conv_lhs => rw [genLoop_eq]
    conv_rhs => rw [genLoop_eq]
    have hp : ¬ p.n_srcs < p.n_gen := by omega
    have hq : ¬ q.n_srcs < q.n_gen := by omega
    rw [if_neg hp, if_neg hq]
    exact hs
  | succ m ih =>
    intro p q k hn hgen hsrcs hs h1 h2 h3 h4 h5 h6 h7
    conv_lhs => rw [genLoop_eq]
    conv_rhs => rw [genLoop_eq]
    by_cases hp : p.n_srcs < p.n_gen
    · have hq : q.n_srcs < q.n_gen := by omega
      rw [if_pos hp, if_pos hq]
      refine ih (stepPop ext ds zs r p k) (stepPop ext ds zs r q k) (k + 5)
        (by rw [stepPop_n_gen, stepPop_n_srcs]; omega)
        (by rw [stepPop_n_gen, stepPop_n_gen, hgen])
        (by rw [stepPop_n_srcs, stepPop_n_srcs, hsrcs])
        ?_ h1 h2 h3 h4 h5 h6 h7
      rw [stepPop_sources, stepPop_sources, hs,
        mkSource_congr ext ds zs r k p q h1 h2 h3 h4 h5 h6 h7]
    · have hq : ¬ q.n_srcs < q.n_gen := by omega
      rw [if_neg hp, if_neg hq]
      exact hs

/-! ## Characterisations of `generate` -/

theorem generate_eq (ext : Externals) (a : GenArgs) (r : ℕ → ℝ) :
    generate ext a r =
      match validate a with
      | some m => .error m
      | none => .ok (genLoop ext (lookupOf ext a).1 (lookupOf ext a).2 r
          (initPop ext a (pyNameStr (nameVal a))) 0) := rfl

theorem generate_error_iff (ext : Externals) (a : GenArgs) (r : ℕ → ℝ) (m : String) :
    generate ext a r = .error m ↔ validate a = some m := by
  rw [generate_eq]
  cases hv : validate a with
  | none => simp
  | some m2 => simp

theorem generate_ok_iff (ext : Externals) (a : GenArgs) (r : ℕ → ℝ) (pop : Population) :
    generate ext a r = .ok pop ↔
      validate a = none ∧
      pop = genLoop ext (lookupOf ext a).1 (lookupOf ext a).2 r
        (initPop ext a (pyNameStr (nameVal a))) 0 := by
  rw [generate_eq]
  cases hv : validate a with
  | none => simp [eq_comm]
  | some m2 => simp

/-- A successful run has exactly `n_gen` sources and `n_srcs = n_gen`. -/
theorem generate_counts (ext : Externals) (a : GenArgs) (r : ℕ → ℝ) (pop : Population)
    (h : generate ext a r = .ok pop) :
    pop.n_srcs = pop.n_gen ∧ pop.sources.length = pop.n_gen := by
  obtain ⟨-, rfl⟩ := (generate_ok_iff ext a r pop).1 h
  have hsrcs := genLoop_n_srcs ext (lookupOf ext a).1 (lookupOf ext a).2 r
    _ (initPop ext a (pyNameStr (nameVal a))) 0 rfl (by simp [initPop])
  have hlen := genLoop_len ext (lookupOf ext a).1 (lookupOf ext a).2 r
    _ (initPop ext a (pyNameStr (nameVal a))) 0 rfl (by simp [initPop])
  have hgen := genLoop_n_gen ext (lookupOf ext a).1 (lookupOf ext a).2 r
    (initPop ext a (pyNameStr (nameVal a))) 0
  refine ⟨?_, ?_⟩
  · rw [hsrcs, hgen]
  · rw [hlen, hsrcs, hgen]

theorem validate_none_n_gen (a : GenArgs) (h : validate a = none) : 1 ≤ a.n_gen := by
  by_contra hc
  unfold validate at h
  rw [if_pos (by omega)] at h
  cases h

/-! ## A concrete collaborator instance and a concrete run -/

theorem genOk0 : generate ext0 args0 r0 = .ok pop0 := rfl

theorem pop0_eq : pop0 = genLoop ext0 (lookupOf ext0 args0).1 (lookupOf ext0 args0).2 r0
    (initPop ext0 args0 "Initial") 0 := rfl

theorem pop0_n_gen : pop0.n_gen = 1 := by
  rw [pop0_eq, genLoop_n_gen]
  rfl

theorem pop0_len : pop0.sources.length = 1 := by
  have h := generate_counts ext0 args0 r0 pop0 genOk0
  rw [h.2, pop0_n_gen]

theorem src0_mem : src0 ∈ pop0.sources := by
  have h := pop0_len
  unfold src0
  cases hs : pop0.sources with
  | nil => rw [hs] at h; cases h
  | cons a t => simp

/-! ## Claim theorems -/

/-- C1: a successful `generate` returns a population with exactly `n_gen`
sources (`n_srcs = n_gen`, as many stored sources, and `n_gen` is the
requested count); one loop step from a state with `n_srcs < n_gen` never
takes `n_srcs` beyond `n_gen`, the loop keeps iterating while
`n_srcs < n_gen`, and it stops exactly when the guard fails, i.e. at
`n_srcs = n_gen`. -/
theorem C1_generate_counts (ext : Externals) (a : GenArgs) (r : ℕ → ℝ)
    (pop : Population) (h : generate ext a r = .ok pop) :
    (pop.n_srcs = pop.n_gen ∧ pop.sources.length = pop.n_gen ∧ (pop.n_gen : ℤ) = a.n_gen) ∧
    (∀ (ds zs : List ℝ) (q : Population) (k : ℕ), q.n_srcs < q.n_gen →
      (stepPop ext ds zs r q k).n_srcs ≤ q.n_gen) ∧
    (∀ (ds zs : List ℝ) (q : Population) (k : ℕ), q.n_srcs < q.n_gen →
      genLoop ext ds zs r q k = genLoop ext ds zs r (stepPop ext ds zs r q k) (k + 5)) ∧
    (∀ (ds zs : List ℝ) (q : Population) (k : ℕ), q.n_srcs = q.n_gen →
      genLoop ext ds zs r q k = q) := by
  obtain ⟨h1, h2⟩ := generate_counts ext a r pop h
  obtain ⟨hval, hpop⟩ := (generate_ok_iff ext a r pop).1 h
  have hga : 1 ≤ a.n_gen := validate_none_n_gen a hval
  refine ⟨⟨h1, h2, ?_⟩, ?_, ?_, ?_⟩
  · rw [hpop, genLoop_n_gen]
    show ((a.n_gen.toNat : ℕ) : ℤ) = a.n_gen
    omega
  · intro ds zs q k hlt
    rw [stepPop_n_srcs]
    omega
  · intro ds zs q k hlt
    conv_lhs => rw [genLoop_eq]
    rw [if_pos hlt]
  · intro ds zs q k heq
    rw [genLoop_eq, if_neg (by omega)]

/-- C1 witness: the concrete one-source run ends with `n_srcs = n_gen`. -/
theorem C1_witness : pop0.n_srcs = pop0.n_gen :=
  (C1_generate_counts ext0 args0 r0 pop0 genOk0).1.1

/-- C2: every generated source satisfies `dm = dm_mw + dm_igm + dm_host`
exactly, and `dm_host` is the fixed constant 100 whatever the
configuration. -/
theorem C2_dm_sum (ext : Externals) (a : GenArgs) (r : ℕ → ℝ) (pop : Population)
    (h : generate ext a r = .ok pop) :
    ∀ s ∈ pop.sources, s.dm = s.dm_mw + s.dm_igm + s.dm_host ∧ s.dm_host = 100 := by
  obtain ⟨-, hpop⟩ := (generate_ok_iff ext a r pop).1 h
  rw [hpop]
  exact genLoop_sources_forall ext (lookupOf ext a).1 (lookupOf ext a).2 r _ _
    (initPop ext a (pyNameStr (nameVal a))) 0 rfl
    (by intro s hs; simp [initPop] at hs)
    (by intro q j _ _ _ _ _ _ _; exact ⟨rfl, rfl⟩)

/-- C2 witness: the source of the concrete run. -/
theorem C2_witness : src0.dm = src0.dm_mw + src0.dm_igm + src0.dm_host ∧ src0.dm_host = 100 :=
  C2_dm_sum ext0 args0 r0 pop0 genOk0 src0 src0_mem

/-- C7: `generate(n_gen=0)` fails with the source-count message and
`generate(n_gen=5, electron_model='bogus')` fails with the electron-model
message; both messages literally contain the mentioned phrase, and both
failures are identical across collaborator instances and random streams
(no source is sampled). -/
theorem C7_invalid_inputs (ext ext2 : Externals) (r r2 : ℕ → ℝ) :
    generate ext { n_gen := 0 } r =
      .error "Please ensure the number of generated sources is > 0" ∧
    generate ext { n_gen := 5, electron_model := "bogus" } r =
      .error ("Unsupported electron model: " ++ "bogus") ∧
    generate ext { n_gen := 0 } r = generate ext2 { n_gen := 0 } r2 ∧
    generate ext { n_gen := 5, electron_model := "bogus" } r =
      generate ext2 { n_gen := 5, electron_model := "bogus" } r2 ∧
    (∃ u w : String, "Please ensure the number of generated sources is > 0" =
      u ++ "number of generated sources" ++ w) ∧
    (∃ u w : String, "Unsupported electron model: " ++ "bogus" =
      u ++ "electron model" ++ w) :=
  ⟨rfl, rfl, rfl, rfl, ⟨"Please ensure the ", " is > 0", rfl⟩,
    ⟨"Unsupported ", ": bogus", rfl⟩⟩

/-- C8: a validation failure produces the very same error for every
collaborator instance and every random stream — so it happens before the
population is constructed, before the lookup table is built and before
any draw is consumed — and a successful run always carries exactly
`n_gen` sources: no partial population is ever returned. -/
theorem C8_fail_fast :
    (∀ (ext : Externals) (a : GenArgs) (r : ℕ → ℝ) (m : String),
      generate ext a r = .error m →
      ∀ (ext2 : Externals) (r2 : ℕ → ℝ), generate ext2 a r2 = .error m) ∧
    (∀ (ext : Externals) (a : GenArgs) (r : ℕ → ℝ) (pop : Population),
      generate ext a r = .ok pop →
      pop.n_srcs = pop.n_gen ∧ pop.sources.length = pop.n_gen) := by
  constructor
  · intro ext a r m h ext2 r2
    rw [generate_error_iff] at h ⊢
    exact h
  · intro ext a r pop h
    exact generate_counts ext a r pop h

/-- C8 witness: the `n_gen = 0` failure transfers to a different random
stream unchanged. -/
theorem C8_witness :
    generate ext0 { n_gen := 0 } (fun _ => 1 / 2) =
      .error "Please ensure the number of generated sources is > 0" :=
  C8_fail_fast.1 ext0 { n_gen := 0 } r0
    "Please ensure the number of generated sources is > 0" rfl ext0 (fun _ => 1 / 2)

/-- C9: each loop iteration appends exactly one source and increments
`n_srcs` by exactly one; the `sources.length = n_srcs` invariant is
preserved by the loop and holds for every returned population. -/
theorem C9_length_invariant (ext : Externals) (ds zs : List ℝ) (r : ℕ → ℝ) :
    (∀ (q : Population) (k : ℕ),
      (stepPop ext ds zs r q k).sources.length = q.sources.length + 1 ∧
      (stepPop ext ds zs r q k).n_srcs = q.n_srcs + 1 ∧
      (stepPop ext ds zs r q k).sources = q.sources ++ [mkSource ext q ds zs r k]) ∧
    (∀ (q : Population) (k : ℕ), q.sources.length = q.n_srcs →
      (genLoop ext ds zs r q k).sources.length = (genLoop ext ds zs r q k).n_srcs) ∧
    (∀ (a : GenArgs) (pop : Population), generate ext a r = .ok pop →
      pop.sources.length = pop.n_srcs) := by
  refine ⟨?_, ?_, ?_⟩
  · intro q k
    exact ⟨by rw [stepPop_sources]; simp, stepPop_n_srcs ext ds zs r q k,
      stepPop_sources ext ds zs r q k⟩
  · intro q k hq
    exact genLoop_len ext ds zs r _ q k rfl hq
  · intro a pop h
    obtain ⟨h1, h2⟩ := generate_counts ext a r pop h
    rw [h2, h1]

/-- C9 witness: the concrete run's bookkeeping matches. -/
theorem C9_witness : pop0.sources.length = pop0.n_srcs :=
  (C9_length_invariant ext0 [] [] r0).2.2 args0 pop0 genOk0

/-! ## The spec-modelled cosmology: facts for C3 -/

theorem flrw_integrand_lower (x : ℝ) (hx : 0 ≤ x) :
    (1 : ℝ) ≤ 0.286 * (1 + x) ^ 3 + 0.714 := by
  nlinarith [sq_nonneg x, mul_nonneg hx (sq_nonneg x)]

theorem flrw_shape_cont :
    ContinuousOn (fun t : ℝ => 1 / Real.sqrt (0.286 * (1 + t) ^ 3 + 0.714))
      (Set.uIcc (0 : ℝ) 2.5) := by
  have hbase : Continuous fun t : ℝ => 0.286 * (1 + t) ^ 3 + 0.714 := by continuity
  apply ContinuousOn.div continuousOn_const (Real.continuous_sqrt.comp hbase).continuousOn
  intro x hx
  rw [Set.uIcc_of_le (by norm_num : (0:ℝ) ≤ 2.5)] at hx
  have h1 := flrw_integrand_lower x hx.1
  exact ne_of_gt (Real.sqrt_pos.mpr (by linarith))

theorem flrw_shape_pos :
    0 < ∫ t in (0:ℝ)..2.5, 1 / Real.sqrt (0.286 * (1 + t) ^ 3 + 0.714) := by
  apply intervalIntegral.intervalIntegral_pos_of_pos_on
    flrw_shape_cont.intervalIntegrable
  · intro x hx
    have h1 := flrw_integrand_lower x (le_of_lt hx.1)
    have hs : 0 < Real.sqrt (0.286 * (1 + x) ^ 3 + 0.714) :=
      Real.sqrt_pos.mpr (by linarith)
    exact div_pos one_pos hs
  · norm_num

/-- The spec contract genuinely depends on the supplied Hubble constant:
doubling `H0` changes the comoving volume out to `z = 2.5`. -/
theorem flrw_v_ne :
    z_to_v_flrw 69.6 0.286 0.714 2.5 ≠ z_to_v_flrw 139.2 0.286 0.714 2.5 := by
  unfold z_to_v_flrw
  have hI := flrw_shape_pos
  have hpi := Real.pi_pos
  set I := ∫ t in (0:ℝ)..2.5, 1 / Real.sqrt (0.286 * (1 + t) ^ 3 + 0.714) with hIdef
  intro h
  have hB : (0:ℝ) < 299792.458 / 139.2 * I := by positivity
  have h2 : (299792.458 / 69.6 : ℝ) * I = 2 * (299792.458 / 139.2 * I) := by
    rw [show (299792.458 / 69.6 : ℝ) = 2 * (299792.458 / 139.2) by norm_num]
    ring
  rw [h2] at h
  nlinarith [pow_pos hB 3, mul_pos hpi (pow_pos hB 3)]

theorem popB_eq : popB = genLoop refExt (lookupOf refExt argsB).1 (lookupOf refExt argsB).2 r0
    (initPop refExt argsB "Initial") 0 := rfl

theorem popB_v_max : popB.v_max = go_z_to_v 2.5 := by
  rw [popB_eq, genLoop_v_max]
  rfl

theorem popR_eq : popR = genLoop refExt (lookupOf refExt { n_gen := 1 }).1
    (lookupOf refExt { n_gen := 1 }).2 r0 (initPop refExt { n_gen := 1 } "Initial") 0 := rfl

theorem popR_v_max : popR.v_max = go_z_to_v 2.5 := by
  rw [popR_eq, genLoop_v_max]
  rfl

/-- C3 (amended): the stored `v_max` is `z_to_v(z_max)` -- a function of
`z_max` and the cosmology module alone, not of the supplied `cosmo_pars`;
two successful runs differing only in `cosmo_pars` always store the same
`v_max`. -/
theorem C3_v_max (ext : Externals) (a : GenArgs) (r : ℕ → ℝ) (pop : Population)
    (h : generate ext a r = .ok pop) :
    pop.v_max = ext.z_to_v a.z_max ∧
    ∀ (ps : List ℝ) (pop2 : Population),
      generate ext { a with cosmo_pars := ps } r = .ok pop2 →
      pop2.v_max = pop.v_max := by
  have hv : ∀ (a2 : GenArgs) (pop2 : Population), generate ext a2 r = .ok pop2 →
      pop2.v_max = ext.z_to_v a2.z_max := by
    intro a2 pop2 h2
    obtain ⟨-, hpop⟩ := (generate_ok_iff ext a2 r pop2).1 h2
    rw [hpop, genLoop_v_max]
    rfl
  refine ⟨hv a pop h, ?_⟩
  intro ps pop2 h2
  rw [hv { a with cosmo_pars := ps } pop2 h2, hv a pop h]

/-- C3 counterexample: under the spec-modelled cosmology module, the run
configured with `cosmo_pars = [139.2, 0.286, 0.714]` stores a `v_max`
that is NOT the comoving volume under the supplied parameters, and that
coincides with the `v_max` of the run configured with the default
`cosmo_pars`. -/
theorem C3_counterexample :
    popB.v_max ≠ z_to_v_flrw 139.2 0.286 0.714 2.5 ∧ popB.v_max = popR.v_max := by
  constructor
  · rw [popB_v_max]
    exact flrw_v_ne
  · rw [popB_v_max, popR_v_max]

/-- C3 witness: the concrete default run stores `z_to_v(z_max)`. -/
theorem C3_witness : pop0.v_max = ext0.z_to_v args0.z_max :=
  (C3_v_max ext0 args0 r0 pop0 genOk0).1

/-- C4: with uniform draws in `[0,1)`, each generated source's latitude
is `degrees(asin U)` sign-flipped according to the next draw, its
longitude is `360 U` with a fresh draw, and its comoving distance is
`(v_max U 3/(4 pi))^(1/3)` with a fresh draw -- closed forms at
consecutive stream offsets, no rejection or retry -- and the ranges
`gb ∈ [-90, 90]` and `gl ∈ [0, 360)` hold. -/
theorem C4_geometry (ext : Externals) (a : GenArgs) (r : ℕ → ℝ) (pop : Population)
    (h : generate ext a r = .ok pop) (hr : ∀ i, 0 ≤ r i ∧ r i < 1) :
    ∀ s ∈ pop.sources,
      ((-90 ≤ s.gb ∧ s.gb ≤ 90) ∧ (0 ≤ s.gl ∧ s.gl < 360)) ∧
      ∃ k, s.gb = (if r (k + 1) < 0.5 then -(degrees (Real.arcsin (r k)))
          else degrees (Real.arcsin (r k))) ∧
        s.gl = r (k + 2) * 360 ∧
        s.dist = (pop.v_max * r (k + 3) * (3 / (4 * Real.pi))) ^ ((1 : ℝ) / 3) := by
  obtain ⟨-, hpop⟩ := (generate_ok_iff ext a r pop).1 h
  rw [hpop, genLoop_v_max]
  refine genLoop_sources_forall ext (lookupOf ext a).1 (lookupOf ext a).2 r
    (fun s => ((-90 ≤ s.gb ∧ s.gb ≤ 90) ∧ (0 ≤ s.gl ∧ s.gl < 360)) ∧
      ∃ k, (s.gb = if r (k + 1) < 0.5 then -(degrees (Real.arcsin (r k)))
          else degrees (Real.arcsin (r k))) ∧
        s.gl = r (k + 2) * 360 ∧
        s.dist = ((initPop ext a (pyNameStr (nameVal a))).v_max * r (k + 3) *
          (3 / (4 * Real.pi))) ^ ((1 : ℝ) / 3))
    _ (initPop ext a (pyNameStr (nameVal a))) 0 rfl
    (by intro s hs; simp [initPop] at hs) ?_
  intro q j hq1 _ _ _ _ _ _
  have hu0 := hr j
  have hub : 0 ≤ degrees (Real.arcsin (r j)) ∧ degrees (Real.arcsin (r j)) ≤ 90 := by
    unfold degrees
    have hpi := Real.pi_pos
    constructor
    · exact mul_nonneg (Real.arcsin_nonneg.mpr hu0.1) (by positivity)
    · have hle := Real.arcsin_le_pi_div_two (r j)
      have h90 : (Real.pi / 2) * (180 / Real.pi) = 90 := by
        field_simp
        ring
      calc Real.arcsin (r j) * (180 / Real.pi)
          ≤ (Real.pi / 2) * (180 / Real.pi) :=
            mul_le_mul_of_nonneg_right hle (by positivity)
        _ = 90 := h90
  have hgbval : (mkSource ext q (lookupOf ext a).1 (lookupOf ext a).2 r j).gb =
      (if r (j + 1) < 0.5 then degrees (Real.arcsin (r j)) * (-1)
        else degrees (Real.arcsin (r j))) := rfl
  have hglval : (mkSource ext q (lookupOf ext a).1 (lookupOf ext a).2 r j).gl =
      r (j + 2) * 360 := rfl
  have hdistval : (mkSource ext q (lookupOf ext a).1 (lookupOf ext a).2 r j).dist =
      (q.v_max * r (j + 3) * (3 / (4 * Real.pi))) ^ ((1 : ℝ) / 3) := rfl
  have hu2 := hr (j + 2)
  refine ⟨⟨?_, ?_⟩, j, ?_, ?_, ?_⟩
  · rw [hgbval]
    split
    · constructor <;> linarith [hub.1, hub.2]
    · constructor <;> linarith [hub.1, hub.2]
  · rw [hglval]
    constructor
    · exact mul_nonneg hu2.1 (by norm_num)
    · nlinarith [hu2.1, hu2.2]
  · rw [hgbval]
    split <;> ring
  · rw [hglval]
  · rw [hdistval, hq1]

/-- C4 witness: the source of the concrete run has its angles in range. -/
theorem C4_witness :
    (-90 ≤ src0.gb ∧ src0.gb ≤ 90) ∧ (0 ≤ src0.gl ∧ src0.gl < 360) :=
  (C4_geometry ext0 args0 r0 pop0 genOk0
    (fun _ => ⟨le_rfl, by show (0:ℝ) < 1; norm_num⟩) src0 src0_mem).1

theorem pop0_lum : pop0.lum_min = 1e40 ∧ pop0.lum_max = 1e50 := by
  constructor
  · rw [pop0_eq, genLoop_lum_min]; rfl
  · rw [pop0_eq, genLoop_lum_max]; rfl

/-- C5: assuming the delegated `powerlaw` sampler meets its stated
contract, every generated source's bolometric luminosity lies within
`[lum_min, lum_max]` inclusive, and with degenerate bounds
`lum_dist_pars = [L, L, p]` every source has `lum_bol = L`. -/
theorem C5_luminosity (ext : Externals) (a : GenArgs) (r : ℕ → ℝ) (pop : Population)
    (h : generate ext a r = .ok pop)
    (hpl : ∀ lo hi idx u, lo ≤ hi →
      lo ≤ ext.powerlaw lo hi idx u ∧ ext.powerlaw lo hi idx u ≤ hi)
    (hfix : ∀ L idx u, ext.powerlaw L L idx u = L) :
    (pop.lum_min ≤ pop.lum_max →
      ∀ s ∈ pop.sources, pop.lum_min ≤ s.lum_bol ∧ s.lum_bol ≤ pop.lum_max) ∧
    (∀ L p3, a.lum_dist_pars = [L, L, p3] → ∀ s ∈ pop.sources, s.lum_bol = L) := by
  obtain ⟨-, hpop⟩ := (generate_ok_iff ext a r pop).1 h
  constructor
  · rw [hpop, genLoop_lum_min, genLoop_lum_max]
    intro hord
    refine genLoop_sources_forall ext (lookupOf ext a).1 (lookupOf ext a).2 r
      (fun s => (initPop ext a (pyNameStr (nameVal a))).lum_min ≤ s.lum_bol ∧
        s.lum_bol ≤ (initPop ext a (pyNameStr (nameVal a))).lum_max)
      _ (initPop ext a (pyNameStr (nameVal a))) 0 rfl
      (by intro s hs; simp [initPop] at hs) ?_
    intro q j _ _ _ _ hq5 hq6 _
    have hl : (mkSource ext q (lookupOf ext a).1 (lookupOf ext a).2 r j).lum_bol =
        ext.powerlaw q.lum_min q.lum_max q.lum_pow (r (j + 4)) := rfl
    rw [hl, hq5, hq6]
    exact hpl _ _ _ _ hord
  · intro L p3 hLp
    have hmin : (initPop ext a (pyNameStr (nameVal a))).lum_min = L := by
      simp [initPop, hLp]
    have hmax : (initPop ext a (pyNameStr (nameVal a))).lum_max = L := by
      simp [initPop, hLp]
    rw [hpop]
    refine genLoop_sources_forall ext (lookupOf ext a).1 (lookupOf ext a).2 r
      (fun s => s.lum_bol = L) _ (initPop ext a (pyNameStr (nameVal a))) 0 rfl
      (by intro s hs; simp [initPop] at hs) ?_
    intro q j _ _ _ _ hq5 hq6 _
    have hl : (mkSource ext q (lookupOf ext a).1 (lookupOf ext a).2 r j).lum_bol =
        ext.powerlaw q.lum_min q.lum_max q.lum_pow (r (j + 4)) := rfl
    rw [hl, hq5, hq6, hmin, hmax]
    exact hfix L q.lum_pow (r (j + 4))

/-- C5 witness: the concrete run's source respects the configured bounds. -/
theorem C5_witness : pop0.lum_min ≤ src0.lum_bol ∧ src0.lum_bol ≤ pop0.lum_max :=
  (C5_luminosity ext0 args0 r0 pop0 genOk0
    (fun _ _ _ _ hle => ⟨le_rfl, hle⟩) (fun _ _ _ => rfl)).1
    (by rw [pop0_lum.1, pop0_lum.2]; norm_num) src0 src0_mem

theorem genOkSi : generate ext0 argsSi r0 = .ok popSi := rfl

/-- C6: every generated source's spectral index is the fixed constant
-1.4; two runs over the same stream and collaborators differing only in
`si_pars` produce identical source lists; and `si_pars` are validated and
stored on the population (as `si_mean`/`si_sigma`) without influencing
any source field. -/
theorem C6_spectral_index (ext : Externals) (a : GenArgs) (r : ℕ → ℝ) (ps : List ℝ)
    (pop1 pop2 : Population)
    (h1 : generate ext a r = .ok pop1)
    (h2 : generate ext { a with si_pars := ps } r = .ok pop2) :
    (∀ s ∈ pop1.sources, s.si = -1.4) ∧
    pop1.sources = pop2.sources ∧
    pop1.si_mean = a.si_pars.getD 0 0 ∧ pop1.si_sigma = a.si_pars.getD 1 0 := by
  obtain ⟨-, hp1⟩ := (generate_ok_iff ext a r pop1).1 h1
  obtain ⟨-, hp2⟩ := (generate_ok_iff ext { a with si_pars := ps } r pop2).1 h2
  refine ⟨?_, ?_, ?_, ?_⟩
  · rw [hp1]
    exact genLoop_sources_forall ext (lookupOf ext a).1 (lookupOf ext a).2 r _ _
      (initPop ext a (pyNameStr (nameVal a))) 0 rfl
      (by intro s hs; simp [initPop] at hs)
      (by intro q j _ _ _ _ _ _ _; rfl)
  · rw [hp1, hp2]
    exact genLoop_sources_eq ext (lookupOf ext a).1 (lookupOf ext a).2 r _
      (initPop ext a (pyNameStr (nameVal a)))
      (initPop ext { a with si_pars := ps }
        (pyNameStr (nameVal { a with si_pars := ps }))) 0
      rfl rfl rfl rfl rfl rfl rfl rfl rfl rfl rfl
  · rw [hp1, genLoop_si_mean]
    rfl
  · rw [hp1, genLoop_si_sigma]
    rfl

/-- C6 witness: the concrete runs differing only in `si_pars` agree on
their sources. -/
theorem C6_witness : pop0.sources = popSi.sources :=
  (C6_spectral_index ext0 args0 r0 [2, 3] pop0 popSi genOk0 genOkSi).2.1

/-- For any name value, the default one-source configuration passes every
check before the name check, so validation reduces to the name type
check. -/
theorem validate_default_name (v : PyVal) :
    validate { n_gen := 1, name := v } =
      match nameVal { n_gen := 1, name := v } with
      | PyVal.str _ => none
      | PyVal.none => some "Please provide a string as input for the name of the population"
      | PyVal.int _ => some "Please provide a string as input for the name of the population"
      | PyVal.bool _ => some "Please provide a string as input for the name of the population"
      | PyVal.list _ => some "Please provide a string as input for the name of the population" := by
  cases hnv : nameVal { n_gen := 1, name := v } with
  | str s =>
    show (match nameVal { n_gen := 1, name := v } with
      | PyVal.str _ => (none : Option String)
      | _ => some "Please provide a string as input for the name of the population") = _
    rw [hnv]
  | none =>
    show (match nameVal { n_gen := 1, name := v } with
      | PyVal.str _ => (none : Option String)
      | _ => some "Please provide a string as input for the name of the population") = _
    rw [hnv]
  | int n =>
    show (match nameVal { n_gen := 1, name := v } with
      | PyVal.str _ => (none : Option String)
      | _ => some "Please provide a string as input for the name of the population") = _
    rw [hnv]
  | bool b =>
    show (match nameVal { n_gen := 1, name := v } with
      | PyVal.str _ => (none : Option String)
      | _ => some "Please provide a string as input for the name of the population") = _
    rw [hnv]
  | list l =>
    show (match nameVal { n_gen := 1, name := v } with
      | PyVal.str _ => (none : Option String)
      | _ => some "Please provide a string as input for the name of the population") = _
    rw [hnv]

/-- A falsy name is defaulted to 'Initial' and generation succeeds. -/
theorem generate_falsy_name (ext : Externals) (r : ℕ → ℝ) (v : PyVal)
    (hvf : pyTruthy v = false) :
    ∃ pop, generate ext { n_gen := 1, name := v } r = .ok pop ∧ pop.name = "Initial" := by
  have hnv : nameVal { n_gen := 1, name := v } = PyVal.str "Initial" := by
    show (if pyTruthy v then v else PyVal.str "Initial") = PyVal.str "Initial"
    rw [hvf]
    rfl
  have hval : validate { n_gen := 1, name := v } = none := by
    rw [validate_default_name, hnv]
  refine ⟨_, (generate_ok_iff ext { n_gen := 1, name := v } r _).2 ⟨hval, rfl⟩, ?_⟩
  rw [genLoop_name]
  show pyNameStr (nameVal { n_gen := 1, name := v }) = "Initial"
  rw [hnv]
  rfl

/-- C10: every falsy `name` argument (None, the empty string, 0, False,
the empty list) does not raise: it is silently replaced by 'Initial'
before the string type check, so generation succeeds and the population
is named 'Initial'; only truthy non-string names are rejected, with the
name error message. -/
theorem C10_falsy_names (ext : Externals) (r : ℕ → ℝ) :
    (∀ v ∈ ([PyVal.none, PyVal.str "", PyVal.int 0, PyVal.bool false,
        PyVal.list []] : List PyVal),
      pyTruthy v = false ∧
      ∃ pop, generate ext { n_gen := 1, name := v } r = .ok pop ∧
        pop.name = "Initial") ∧
    (∀ w : PyVal, pyTruthy w = true → (∀ s, w ≠ PyVal.str s) →
      generate ext { n_gen := 1, name := w } r =
        .error "Please provide a string as input for the name of the population") := by
  constructor
  · intro v hv
    have hvf : pyTruthy v = false := by
      simp only [List.mem_cons, List.not_mem_nil, or_false] at hv
      rcases hv with rfl | rfl | rfl | rfl | rfl <;> rfl
    exact ⟨hvf, generate_falsy_name ext r v hvf⟩
  · intro w hw hnstr
    rw [generate_error_iff]
    have hname : nameVal { n_gen := 1, name := w } = w := by
      show (if pyTruthy w then w else PyVal.str "Initial") = w
      rw [hw]
      rfl
    rw [validate_default_name, hname]
    cases w with
    | str s => exact absurd rfl (hnstr s)
    | none => simp [pyTruthy] at hw
    | int n => rfl
    | bool b => rfl
    | list l => rfl

/-- C10 witness: the integer 0 as name yields the default name, no
error. -/
theorem C10_witness :
    pyTruthy (PyVal.int 0) = false ∧
    (getOk (generate ext0 { n_gen := 1, name := PyVal.int 0 } r0)).name = "Initial" := by
  obtain ⟨h1, pop, hok, hname⟩ := (C10_falsy_names ext0 r0).1 (PyVal.int 0) (by simp)
  refine ⟨h1, ?_⟩
  rw [hok]
  exact hname

end Frbpoppy
